import Mathlib

/-!
Shallow embedding of the heuristic scoring engine of `lib/analyzer.ts`
(solana-bundler-detector).  JavaScript numbers are modelled exactly:
integer quantities (timestamps, counts, scores) as `ℤ`/`ℕ`, token
amounts and intermediate statistics as `ℚ`, and the two places where
the source calls `Math.sqrt` as `Real.sqrt` over `ℝ`.  `Math.round x`
is `⌊x + 1/2⌋`.

JavaScript `Map` iteration order (insertion order) is modelled by
`List.dedup` of the key list: every consumer of a map in the source
(mean, variance, per-wallet totals, suspicious-wallet count) is a
multiset aggregate, so the key order is not observable in any result
field; `dedup` is used because Mathlib provides its lemmas directly.

`Array.prototype.sort` mutates its receiver; `analyzeTimeClustering`
in the source sorts the transfer array in place, so every later pass
of `analyzeBundlingPatterns` sees the timestamp-sorted array.  The
embedding makes that explicit: `timingSortedView` is the state of the
caller's array after `analyzeTimeClustering` returns, and the later
passes receive it.  JavaScript's sort is stable, as is
`List.insertionSort`.
-/

namespace BundlerDetector

/-- One token transfer, `TokenTransfer` in the source.  The source's
`from`/`to` fields are `fromAddr`/`toAddr` (`from` is a Lean keyword). -/
structure TokenTransfer where
  signature : String
  timestamp : ℤ
  fromAddr : String
  toAddr : String
  amount : ℚ
  slot : ℤ
deriving DecidableEq

/-- The four metric fields of `AnalysisResult.metrics`. -/
structure Metrics where
  timingCluster : ℤ
  walletSimilarity : ℤ
  sizePatterns : ℤ
  distribution : ℤ
deriving DecidableEq

/-- The `AnalysisResult.details` record. -/
structure Details where
  totalTransactions : ℕ
  uniqueWallets : ℕ
  analysisPeriod : String
  suspiciousWallets : ℕ
deriving DecidableEq

/-- The `AnalysisResult.insights` record. -/
structure Insights where
  riskLevel : String
  primaryConcerns : List String
  recommendations : List String
  explanation : String
deriving DecidableEq

/-- The full `AnalysisResult`. -/
structure AnalysisResult where
  score : ℤ
  metrics : Metrics
  details : Details
  insights : Insights

/-- JavaScript `Math.round` on an exact rational: `⌊x + 1/2⌋`
(round half toward +∞, identical to half-away-from-zero for the
nonnegative values produced by the engine). -/
def jsRoundQ (x : ℚ) : ℤ := ⌊x + 1/2⌋

/-- JavaScript `Math.round` on a real value (used where the source
divides a `Math.sqrt` result). -/
noncomputable def jsRoundR (x : ℝ) : ℤ := ⌊x + 1/2⌋

/-- Comparator `(a, b) => a.timestamp - b.timestamp` of the source's
in-place sort, as an ordering relation. -/
def tsLe (a b : TokenTransfer) : Prop := a.timestamp ≤ b.timestamp

instance : DecidableRel tsLe := fun a b =>
  inferInstanceAs (Decidable (a.timestamp ≤ b.timestamp))

instance : IsTotal TokenTransfer tsLe :=
  ⟨fun a b => Int.le_total a.timestamp b.timestamp⟩

instance : IsTrans TokenTransfer tsLe :=
  ⟨fun _ _ _ hab hbc => le_trans hab hbc⟩

/-- State of the caller's transfer array after `analyzeTimeClustering`
returns: the source's `transfers.sort((a, b) => a.timestamp - b.timestamp)`
sorts in place (reached only when the array has at least 2 elements). -/
def timingSortedView (transfers : List TokenTransfer) : List TokenTransfer :=
  if transfers.length < 2 then transfers else transfers.insertionSort tsLe

/-- The clusters of `analyzeTimeClustering`'s inner loop: walk the
sorted timestamps, growing the current cluster while the gap to the
previous element is at most `w` ms, recording a closed cluster only
when it has more than one member.  `prev` is `sorted[i-1]`, `cur` the
current cluster. -/
def clustersAux (w prev : ℤ) (cur : List ℤ) : List ℤ → List (List ℤ)
  | [] => if 1 < cur.length then [cur] else []
  | t :: rest =>
      if t - prev ≤ w then clustersAux w t (cur ++ [t]) rest
      else (if 1 < cur.length then [cur] else []) ++ clustersAux w t [t] rest

/-- All recorded clusters for window `w` (ms), starting from
`currentCluster = [sorted[0]]`. -/
def clusters (w : ℤ) : List ℤ → List (List ℤ)
  | [] => []
  | t :: rest => clustersAux w t [t] rest

/-- `Math.max(...clusters.map(c => c.length), 0)`. -/
def maxClusterSize (w : ℤ) (ts : List ℤ) : ℕ :=
  ((clusters w ts).map (·.length)).foldr max 0

/-- `analyzeTimeClustering`: 0 for fewer than 2 transfers, otherwise
the best over the 30s/60s/300s windows of
`min(100, (maxClusterSize / n) * 200)`, rounded.  The source sorts the
transfer objects and then reads only `.timestamp` from them, so the
sorted timestamp sequence is taken directly. -/
def analyzeTimeClustering (transfers : List TokenTransfer) : ℤ :=
  if transfers.length < 2 then 0
  else
    let sorted := (transfers.insertionSort tsLe).map (·.timestamp)
    jsRoundQ (([30, 60, 300] : List ℤ).foldl
      (fun acc w =>
        max acc (min 100 ((maxClusterSize (w * 1000) sorted : ℚ) / (sorted.length : ℚ) * 200)))
      0)

/-- Distinct receiving addresses, the key list of the source's
`Map` keyed by `transfer.to`. -/
def toKeys (transfers : List TokenTransfer) : List String :=
  (transfers.map (·.toAddr)).dedup

/-- Per-receiving-wallet transfer counts, the value list of
`walletCounts` in `analyzeWalletPatterns`. -/
def walletCounts (transfers : List TokenTransfer) : List ℚ :=
  (toKeys transfers).map (fun k => ((transfers.map (·.toAddr)).count k : ℚ))

/-- `analyzeWalletPatterns`: population variance of the per-wallet
transfer counts; coefficient of variation `sqrt(variance) / avg` when
the variance is positive; score `round(max(0, 100 - coefficient*50))`.
The source has no small-input guard here (unlike the timing and size
analyses). -/
noncomputable def analyzeWalletPatterns (transfers : List TokenTransfer) : ℤ :=
  let counts := walletCounts transfers
  let avgTransactionsPerWallet : ℚ := counts.sum / (counts.length : ℚ)
  let variance : ℚ :=
    (counts.map (fun c => (c - avgTransactionsPerWallet) ^ 2)).sum / (counts.length : ℚ)
  let coefficient : ℝ :=
    if 0 < variance then Real.sqrt (variance : ℝ) / (avgTransactionsPerWallet : ℝ) else 0
  jsRoundR (max 0 (100 - coefficient * 50))

/-- `analyzeTransactionSizes`: 0 for fewer than 2 transfers, otherwise
the coefficient of variation of the amounts (0 when the mean is not
positive), scored as `round(max(0, 100 - coefficient*100))`. -/
noncomputable def analyzeTransactionSizes (transfers : List TokenTransfer) : ℤ :=
  if transfers.length < 2 then 0
  else
    let amounts := transfers.map (·.amount)
    let avg : ℚ := amounts.sum / (amounts.length : ℚ)
    let variance : ℚ := (amounts.map (fun a => (a - avg) ^ 2)).sum / (amounts.length : ℚ)
    let stdDev : ℝ := Real.sqrt (variance : ℝ)
    let coefficient : ℝ := if 0 < avg then stdDev / (avg : ℝ) else 0
    jsRoundR (max 0 (100 - coefficient * 100))

/-- Total received amount per receiving wallet, the value list of
`buyerAmounts` in `analyzeDistribution`. -/
def buyerTotals (transfers : List TokenTransfer) : List ℚ :=
  (toKeys transfers).map
    (fun k => ((transfers.filter (fun t => t.toAddr = k)).map (·.amount)).sum)

/-- `analyzeDistribution`: Gini coefficient (pairwise mean absolute
difference) of the per-wallet totals, scored as `round(gini * 100)`;
0 for fewer than 2 wallets or a zero total. -/
def analyzeDistribution (transfers : List TokenTransfer) : ℤ :=
  let amounts := (buyerTotals transfers).insertionSort (· ≥ ·)
  let totalAmount := amounts.sum
  if amounts.length < 2 ∨ totalAmount = 0 then 0
  else
    let g : ℚ := (amounts.map (fun a => (amounts.map (fun b => |a - b|)).sum)).sum
    jsRoundQ (g / (2 * (amounts.length : ℚ) * totalAmount) * 100)

/-- Per-receiving-wallet timestamp lists, the value list of
`walletTimes` in `countSuspiciousWallets`. -/
def walletTimes (transfers : List TokenTransfer) : List (List ℤ) :=
  (toKeys transfers).map
    (fun k => (transfers.filter (fun t => t.toAddr = k)).map (·.timestamp))

/-- The source's inner loop over a wallet's sorted timestamps: walk
adjacent pairs, stop (counting the wallet) at the first pair strictly
less than 300000 ms apart. -/
def hasRapidPair : List ℤ → Bool
  | a :: b :: rest => if b - a < 300000 then true else hasRapidPair (b :: rest)
  | _ => false

/-- `countSuspiciousWallets`: the number of receiving wallets with
more than one transfer whose sorted timestamps contain an adjacent
pair strictly less than 5 minutes apart (each wallet counted once —
the source `break`s after the first qualifying pair). -/
def countSuspiciousWallets (transfers : List TokenTransfer) : ℕ :=
  (walletTimes transfers).countP
    (fun times =>
      if 1 < times.length then hasRapidPair (times.insertionSort (· ≤ ·)) else false)

/-- `generateInsights`: fixed rule table with strict thresholds,
risk-level bucketing, explanation template, and the fallback pair when
no rule fires. -/
def generateInsights (overallScore timingScore walletScore sizeScore distributionScore : ℤ) :
    Insights :=
  let concerns0 : List String :=
    (if 70 < timingScore then ["High coordination in transaction timing"] else []) ++
    (if 60 < walletScore then ["Similar wallet behavior patterns detected"] else []) ++
    (if 60 < sizeScore then ["Automated transaction sizing patterns"] else []) ++
    (if 70 < distributionScore then ["High token concentration among few holders"] else [])
  let recommendations0 : List String :=
    (if 70 < timingScore then ["Investigate if transactions came from known bundling services"] else []) ++
    (if 60 < walletScore then ["Check if suspicious wallets share funding sources or creation dates"] else []) ++
    (if 60 < sizeScore then ["Verify if similar amounts indicate bot activity"] else []) ++
    (if 70 < distributionScore then ["Monitor large holders for potential coordinated selling"] else [])
  let riskLevel :=
    if 80 ≤ overallScore then "High Risk"
    else if 60 ≤ overallScore then "Medium Risk"
    else if 40 ≤ overallScore then "Moderate Risk"
    else "Low Risk"
  let explanation :=
    if 70 ≤ overallScore then
      "Multiple indicators suggest coordinated buying activity. This could indicate bundled transactions, bot activity, or market manipulation."
    else if 40 ≤ overallScore then
      "Some patterns suggest possible coordination, but could also be normal market behavior during high activity periods."
    else
      "Transaction patterns appear mostly organic with natural distribution and timing."
  { riskLevel := riskLevel
    primaryConcerns :=
      if concerns0.length = 0 then concerns0 ++ ["No major red flags detected"] else concerns0
    recommendations :=
      if concerns0.length = 0 then
        recommendations0 ++ ["Continue monitoring for any changes in trading patterns"]
      else recommendations0
    explanation := explanation }

/-- `getPeriodString`: span between the extreme timestamps rounded to
hours, rendered as hours below 24 and as (rounded) days otherwise. -/
def getPeriodString (transfers : List TokenTransfer) : String :=
  if transfers.length = 0 then "0h"
  else
    let times := (transfers.map (·.timestamp)).insertionSort (· ≤ ·)
    let duration := times.getLastD 0 - times.headD 0
    let hours := jsRoundQ ((duration : ℚ) / (1000 * 60 * 60))
    if hours < 24 then toString hours ++ "h" else toString (jsRoundQ ((hours : ℚ) / 24)) ++ "d"

/-- `analyzeBundlingPatterns`: the unique-wallet set and transaction
count are taken from the array as passed in; `analyzeTimeClustering`
then sorts the array in place, so the remaining passes work on
`timingSortedView transfers`. -/
noncomputable def analyzeBundlingPatterns (transfers : List TokenTransfer) : AnalysisResult :=
  let uniqueWallets := (transfers.map (·.fromAddr) ++ transfers.map (·.toAddr)).dedup.length
  let totalTransactions := transfers.length
  let timingScore := analyzeTimeClustering transfers
  let postTiming := timingSortedView transfers
  let walletScore := analyzeWalletPatterns postTiming
  let sizeScore := analyzeTransactionSizes postTiming
  let distributionScore := analyzeDistribution postTiming
  let overallScore := jsRoundQ
    ((timingScore : ℚ) * 0.4 + (walletScore : ℚ) * 0.3 +
      (sizeScore : ℚ) * 0.2 + (distributionScore : ℚ) * 0.1)
  let suspiciousWallets := countSuspiciousWallets postTiming
  { score := overallScore
    metrics :=
      { timingCluster := timingScore
        walletSimilarity := walletScore
        sizePatterns := sizeScore
        distribution := distributionScore }
    details :=
      { totalTransactions := totalTransactions
        uniqueWallets := uniqueWallets
        analysisPeriod := getPeriodString postTiming
        suspiciousWallets := suspiciousWallets }
    insights :=
      generateInsights overallScore timingScore walletScore sizeScore distributionScore }

/-- The engine-level entry check of `analyzeToken` after the transfers
have been fetched: an empty list throws
`'No transactions found for this token'`, which the surrounding
`catch` rewraps as `'Analysis failed: …'`; otherwise the analysis
result is returned. -/
noncomputable def analyzeTokenWithTransfers (transfers : List TokenTransfer) :
    Except String AnalysisResult :=
  if transfers.length = 0 then
    Except.error "Analysis failed: No transactions found for this token"
  else Except.ok (analyzeBundlingPatterns transfers)

/-! ## Generic facts about the JavaScript rounding -/

theorem jsRoundQ_nonneg {x : ℚ} (h : 0 ≤ x) : 0 ≤ jsRoundQ x := by
  unfold jsRoundQ
  exact Int.le_floor.mpr (by push_cast; linarith)

theorem jsRoundQ_le {x : ℚ} {B : ℤ} (h : x ≤ (B : ℚ)) : jsRoundQ x ≤ B := by
  unfold jsRoundQ
  have hlt : ⌊x + 1/2⌋ < B + 1 := Int.floor_lt.mpr (by push_cast; linarith)
  omega

theorem jsRoundR_nonneg {x : ℝ} (h : 0 ≤ x) : 0 ≤ jsRoundR x := by
  unfold jsRoundR
  exact Int.le_floor.mpr (by push_cast; linarith)

theorem jsRoundR_le {x : ℝ} {B : ℤ} (h : x ≤ (B : ℝ)) : jsRoundR x ≤ B := by
  unfold jsRoundR
  have hlt : ⌊x + 1/2⌋ < B + 1 := Int.floor_lt.mpr (by push_cast; linarith)
  omega

/-! ## Range lemmas for the four sub-scores -/

theorem timingSortedView_perm (transfers : List TokenTransfer) :
    (timingSortedView transfers).Perm transfers := by
  unfold timingSortedView
  split
  · exact List.Perm.refl _
  · exact List.perm_insertionSort _ _

theorem analyzeTimeClustering_range (transfers : List TokenTransfer) :
    0 ≤ analyzeTimeClustering transfers ∧ analyzeTimeClustering transfers ≤ 100 := by
  unfold analyzeTimeClustering
  split
  · exact ⟨le_refl 0, by norm_num⟩
  · simp only [List.foldl_cons, List.foldl_nil]
    constructor
    · refine jsRoundQ_nonneg ?_
      exact le_trans (le_trans (le_max_left 0 _) (le_max_left _ _)) (le_max_left _ _)
    · refine jsRoundQ_le ?_
      push_cast
      exact max_le (max_le (max_le (by norm_num) (min_le_left _ _)) (min_le_left _ _))
        (min_le_left _ _)

theorem walletCounts_nonneg (transfers : List TokenTransfer) :
    ∀ c ∈ walletCounts transfers, 0 ≤ c := by
  intro c hc
  simp only [walletCounts, List.mem_map] at hc
  obtain ⟨k, _, rfl⟩ := hc
  positivity

/-- Shared shape of the wallet-similarity and size-pattern scores:
`round(max(0, 100 - c·k))` lies in `[0, 100]` whenever the coefficient
of variation `c` and the scale `k` are nonnegative. -/
theorem cvScore_bounds (c k : ℝ) (hc : 0 ≤ c) (hk : 0 ≤ k) :
    0 ≤ jsRoundR (max 0 (100 - c * k)) ∧ jsRoundR (max 0 (100 - c * k)) ≤ 100 := by
  constructor
  · exact jsRoundR_nonneg (le_max_left 0 _)
  · refine jsRoundR_le ?_
    have h1 : max (0 : ℝ) (100 - c * k) ≤ 100 := max_le (by norm_num) (by nlinarith)
    have h2 : ((100 : ℤ) : ℝ) = 100 := by norm_num
    rw [h2]
    exact h1

theorem analyzeWalletPatterns_range (transfers : List TokenTransfer) :
    0 ≤ analyzeWalletPatterns transfers ∧ analyzeWalletPatterns transfers ≤ 100 := by
  simp only [analyzeWalletPatterns]
  refine cvScore_bounds _ 50 ?_ (by norm_num)
  split
  · refine div_nonneg (Real.sqrt_nonneg _) ?_
    have havg : (0 : ℚ) ≤ (walletCounts transfers).sum / ((walletCounts transfers).length : ℚ) :=
      div_nonneg (List.sum_nonneg (walletCounts_nonneg transfers)) (by positivity)
    exact_mod_cast havg
  · exact le_refl 0

theorem analyzeTransactionSizes_range (transfers : List TokenTransfer) :
    0 ≤ analyzeTransactionSizes transfers ∧ analyzeTransactionSizes transfers ≤ 100 := by
  simp only [analyzeTransactionSizes]
  split
  · exact ⟨le_refl 0, by norm_num⟩
  · refine cvScore_bounds _ 100 ?_ (by norm_num)
    split
    · next hpos =>
        refine div_nonneg (Real.sqrt_nonneg _) ?_
        exact_mod_cast le_of_lt hpos
    · exact le_refl 0

theorem buyerTotals_nonneg (transfers : List TokenTransfer)
    (h : ∀ t ∈ transfers, 0 ≤ t.amount) : ∀ a ∈ buyerTotals transfers, 0 ≤ a := by
  intro a ha
  simp only [buyerTotals, List.mem_map] at ha
  obtain ⟨k, _, rfl⟩ := ha
  refine List.sum_nonneg ?_
  intro x hx
  simp only [List.mem_map, List.mem_filter] at hx
  obtain ⟨t, ⟨ht, _⟩, rfl⟩ := hx
  exact h t ht

theorem sum_map_const_add (a : ℚ) (s : List ℚ) :
    (s.map (fun b => a + b)).sum = (s.length : ℚ) * a + s.sum := by
  induction s with
  | nil => simp
  | cons x xs ih => simp [ih]; ring

theorem sum_map_linear (c S : ℚ) (s : List ℚ) :
    (s.map (fun a => c * a + S)).sum = c * s.sum + (s.length : ℚ) * S := by
  induction s with
  | nil => simp
  | cons x xs ih => simp [ih]; ring

/-- The pairwise absolute-difference sum of a list of nonnegative
rationals is at most `2 · length · sum` — the Gini numerator never
exceeds its denominator. -/
theorem pair_abs_sum_le (s : List ℚ) (h : ∀ a ∈ s, 0 ≤ a) :
    (s.map (fun a => (s.map (fun b => |a - b|)).sum)).sum ≤ 2 * (s.length : ℚ) * s.sum := by
  have inner : ∀ a ∈ s, (s.map (fun b => |a - b|)).sum ≤ (s.length : ℚ) * a + s.sum := by
    intro a ha
    calc (s.map (fun b => |a - b|)).sum ≤ (s.map (fun b => a + b)).sum := by
          refine List.sum_le_sum ?_
          intro b hb
          have h1 : |a - b| ≤ |a| + |b| := abs_sub a b
          rwa [abs_of_nonneg (h a ha), abs_of_nonneg (h b hb)] at h1
      _ = (s.length : ℚ) * a + s.sum := sum_map_const_add a s
  calc (s.map (fun a => (s.map (fun b => |a - b|)).sum)).sum
      ≤ (s.map (fun a => (s.length : ℚ) * a + s.sum)).sum := List.sum_le_sum inner
    _ = (s.length : ℚ) * s.sum + (s.length : ℚ) * s.sum := sum_map_linear _ _ s
    _ = 2 * (s.length : ℚ) * s.sum := by ring

theorem analyzeDistribution_range (transfers : List TokenTransfer)
    (h : ∀ t ∈ transfers, 0 ≤ t.amount) :
    0 ≤ analyzeDistribution transfers ∧ analyzeDistribution transfers ≤ 100 := by
  simp only [analyzeDistribution]
  set amounts := (buyerTotals transfers).insertionSort (· ≥ ·) with ha
  have hnn : ∀ a ∈ amounts, 0 ≤ a := by
    intro a hx
    refine buyerTotals_nonneg transfers h a ?_
    exact ((List.perm_insertionSort _ _).mem_iff).mp hx
  split
  · exact ⟨le_refl 0, by norm_num⟩
  · rename_i hguard
    push_neg at hguard
    obtain ⟨hlen, hT⟩ := hguard
    have hT0 : (0 : ℚ) < amounts.sum := lt_of_le_of_ne (List.sum_nonneg hnn) (Ne.symm hT)
    have hlen0 : (0 : ℚ) < (amounts.length : ℚ) := by
      exact_mod_cast lt_of_lt_of_le (by norm_num) hlen
    have hD : (0 : ℚ) < 2 * (amounts.length : ℚ) * amounts.sum := by positivity
    have hg0 : (0 : ℚ) ≤
        (amounts.map (fun a => (amounts.map (fun b => |a - b|)).sum)).sum := by
      refine List.sum_nonneg ?_
      intro x hx
      simp only [List.mem_map] at hx
      obtain ⟨a, _, rfl⟩ := hx
      exact List.sum_nonneg (fun y hy => by
        simp only [List.mem_map] at hy
        obtain ⟨b, _, rfl⟩ := hy
        exact abs_nonneg _)
    have hgini : (amounts.map (fun a => (amounts.map (fun b => |a - b|)).sum)).sum /
        (2 * (amounts.length : ℚ) * amounts.sum) ≤ 1 :=
      (div_le_one hD).mpr (pair_abs_sum_le amounts hnn)
    constructor
    · refine jsRoundQ_nonneg ?_
      have := div_nonneg hg0 (le_of_lt hD)
      nlinarith
    · refine jsRoundQ_le ?_
      push_cast
      nlinarith [div_nonneg hg0 (le_of_lt hD)]

/-! ## Sample transfers used in concrete instantiations -/

/-- Shorthand for building a transfer record. -/
def mkT (sig : String) (ts : ℤ) (src dst : String) (amt : ℚ) : TokenTransfer :=
  ⟨sig, ts, src, dst, amt, 0⟩

/-! ## C1: composite score and all four metrics are integers in [0, 100] -/

/-- C1: for every non-empty transfer list (amounts nonnegative, per
the data model) the composite score and each of the four metrics of
the analysis result lie in `[0, 100]`. -/
theorem score_and_metrics_in_range (transfers : List TokenTransfer)
    (_hne : transfers ≠ []) (hnn : ∀ t ∈ transfers, 0 ≤ t.amount) :
    (0 ≤ (analyzeBundlingPatterns transfers).score ∧
      (analyzeBundlingPatterns transfers).score ≤ 100) ∧
    (0 ≤ (analyzeBundlingPatterns transfers).metrics.timingCluster ∧
      (analyzeBundlingPatterns transfers).metrics.timingCluster ≤ 100) ∧
    (0 ≤ (analyzeBundlingPatterns transfers).metrics.walletSimilarity ∧
      (analyzeBundlingPatterns transfers).metrics.walletSimilarity ≤ 100) ∧
    (0 ≤ (analyzeBundlingPatterns transfers).metrics.sizePatterns ∧
      (analyzeBundlingPatterns transfers).metrics.sizePatterns ≤ 100) ∧
    (0 ≤ (analyzeBundlingPatterns transfers).metrics.distribution ∧
      (analyzeBundlingPatterns transfers).metrics.distribution ≤ 100) := by
  have ht := analyzeTimeClustering_range transfers
  have hw := analyzeWalletPatterns_range (timingSortedView transfers)
  have hs := analyzeTransactionSizes_range (timingSortedView transfers)
  have hd := analyzeDistribution_range (timingSortedView transfers)
    (fun t htm => hnn t (((timingSortedView_perm transfers).mem_iff).mp htm))
  simp only [analyzeBundlingPatterns]
  refine ⟨⟨?_, ?_⟩, ht, hw, hs, hd⟩
  · refine jsRoundQ_nonneg ?_
    have c1 : (0 : ℚ) ≤ (analyzeTimeClustering transfers : ℚ) := by exact_mod_cast ht.1
    have c2 : (0 : ℚ) ≤ (analyzeWalletPatterns (timingSortedView transfers) : ℚ) := by
      exact_mod_cast hw.1
    have c3 : (0 : ℚ) ≤ (analyzeTransactionSizes (timingSortedView transfers) : ℚ) := by
      exact_mod_cast hs.1
    have c4 : (0 : ℚ) ≤ (analyzeDistribution (timingSortedView transfers) : ℚ) := by
      exact_mod_cast hd.1
    linarith
  · refine jsRoundQ_le ?_
    have c1 : (analyzeTimeClustering transfers : ℚ) ≤ 100 := by exact_mod_cast ht.2
    have c2 : (analyzeWalletPatterns (timingSortedView transfers) : ℚ) ≤ 100 := by
      exact_mod_cast hw.2
    have c3 : (analyzeTransactionSizes (timingSortedView transfers) : ℚ) ≤ 100 := by
      exact_mod_cast hs.2
    have c4 : (analyzeDistribution (timingSortedView transfers) : ℚ) ≤ 100 := by
      exact_mod_cast hd.2
    push_cast
    linarith

/-- Witness for C1: the composite score of a concrete one-element
transfer list is within bounds. -/
theorem score_and_metrics_in_range_witness :
    0 ≤ (analyzeBundlingPatterns [mkT "s" 0 "a" "b" 1]).score ∧
      (analyzeBundlingPatterns [mkT "s" 0 "a" "b" 1]).score ≤ 100 :=
  (score_and_metrics_in_range [mkT "s" 0 "a" "b" 1] (by simp)
    (by intro t htm; simp only [List.mem_singleton] at htm; subst htm; norm_num [mkT])).1

/-! ## C3: empty input fails -/

/-- C3: with an empty transfer list the engine entry point fails with
the documented "no transactions found" error instead of returning an
`AnalysisResult`. -/
theorem analyzeTokenWithTransfers_empty_fails :
    analyzeTokenWithTransfers [] =
      Except.error "Analysis failed: No transactions found for this token" := rfl

/-! ## C2: the composite score is the weighted rounding of the returned metrics -/

/-- C2: for every non-empty transfer list the returned composite score
equals `round(0.4·timingCluster + 0.3·walletSimilarity +
0.2·sizePatterns + 0.1·distribution)` of the metrics returned in the
same result. -/
theorem composite_score_formula (transfers : List TokenTransfer)
    (_h : transfers ≠ []) :
    (analyzeBundlingPatterns transfers).score =
      jsRoundQ (0.4 * ((analyzeBundlingPatterns transfers).metrics.timingCluster : ℚ) +
        0.3 * ((analyzeBundlingPatterns transfers).metrics.walletSimilarity : ℚ) +
        0.2 * ((analyzeBundlingPatterns transfers).metrics.sizePatterns : ℚ) +
        0.1 * ((analyzeBundlingPatterns transfers).metrics.distribution : ℚ)) := by
  simp only [analyzeBundlingPatterns]
  congr 1
  ring

/-- Witness for C2 at the one-element list `[mkT "s" 0 "a" "b" 1]`. -/
theorem composite_score_formula_witness :
    (analyzeBundlingPatterns [mkT "s" 0 "a" "b" 1]).score =
      jsRoundQ (0.4 * ((analyzeBundlingPatterns [mkT "s" 0 "a" "b" 1]).metrics.timingCluster : ℚ) +
        0.3 * ((analyzeBundlingPatterns [mkT "s" 0 "a" "b" 1]).metrics.walletSimilarity : ℚ) +
        0.2 * ((analyzeBundlingPatterns [mkT "s" 0 "a" "b" 1]).metrics.sizePatterns : ℚ) +
        0.1 * ((analyzeBundlingPatterns [mkT "s" 0 "a" "b" 1]).metrics.distribution : ℚ)) :=
  composite_score_formula [mkT "s" 0 "a" "b" 1] (by simp)

/-- Rounding the exact value 100 gives 100. -/
theorem jsRoundR_hundred : jsRoundR 100 = 100 := by
  unfold jsRoundR
  norm_num [Int.floor_eq_iff]

/-! ## C6: the timing-cluster score is permutation invariant -/

theorem sortedTimestamps_perm_eq {l l' : List TokenTransfer} (h : l.Perm l') :
    (l.insertionSort tsLe).map (·.timestamp) =
      (l'.insertionSort tsLe).map (·.timestamp) := by
  haveI : IsAntisymm ℤ (· ≤ ·) := ⟨fun _ _ h h' => le_antisymm h h'⟩
  refine List.eq_of_perm_of_sorted (r := (· ≤ ·)) ?_ ?_ ?_
  · exact ((List.perm_insertionSort tsLe l).map _).trans
      ((h.map _).trans ((List.perm_insertionSort tsLe l').map _).symm)
  · exact (List.sorted_insertionSort tsLe l).map _ (fun _ _ hab => hab)
  · exact (List.sorted_insertionSort tsLe l').map _ (fun _ _ hab => hab)

/-- C6: the timing-cluster sub-score is invariant under permuting the
input transfer list — the internal sort by timestamp neutralizes input
order. -/
theorem analyzeTimeClustering_perm_invariant {l l' : List TokenTransfer}
    (h : l.Perm l') : analyzeTimeClustering l = analyzeTimeClustering l' := by
  simp only [analyzeTimeClustering, h.length_eq, sortedTimestamps_perm_eq h]

/-- Witness for C6 at a concrete two-element list and its swap. -/
theorem analyzeTimeClustering_perm_invariant_witness :
    analyzeTimeClustering [mkT "a" 0 "x" "y" 1, mkT "b" 1000 "x" "z" 1] =
      analyzeTimeClustering [mkT "b" 1000 "x" "z" 1, mkT "a" 0 "x" "y" 1] :=
  analyzeTimeClustering_perm_invariant
    (List.Perm.swap (mkT "b" 1000 "x" "z" 1) (mkT "a" 0 "x" "y" 1) [])

/-! ## C7: the engine does mutate its input array -/

/-- C7 (code bug): on a two-element list whose timestamps are out of
order, the caller's array after `analyzeTimeClustering` is the sorted
list, not the original — `transfers.sort(...)` sorts in place, so the
engine does mutate its input's element order (record fields are
preserved, only the order changes). -/
theorem timingSortedView_changes_input_order :
    timingSortedView [mkT "b" 5000 "x" "z" 1, mkT "a" 0 "x" "y" 1] =
      [mkT "a" 0 "x" "y" 1, mkT "b" 5000 "x" "z" 1] ∧
    timingSortedView [mkT "b" 5000 "x" "z" 1, mkT "a" 0 "x" "y" 1] ≠
      [mkT "b" 5000 "x" "z" 1, mkT "a" 0 "x" "y" 1] := by
  constructor <;> decide

/-! ## C4: sub-scores on insufficient data -/

/-- On any single-element transfer list the wallet-similarity
sub-score evaluates to 100: the lone wallet count gives variance 0,
so the coefficient of variation is 0. -/
theorem analyzeWalletPatterns_singleton (t : TokenTransfer) :
    analyzeWalletPatterns [t] = 100 := by
  simp [analyzeWalletPatterns, walletCounts, toKeys, jsRoundR_hundred]

/-- C4 counterexample: on a single-element transfer list the
wallet-similarity sub-score is not 0 (the source has no small-input
guard in `analyzeWalletPatterns`; the singleton's variance is 0, so
the score is 100). -/
theorem walletScore_singleton_ne_zero :
    analyzeWalletPatterns [mkT "s" 0 "a" "b" 1] ≠ 0 := by
  simp [analyzeWalletPatterns, walletCounts, toKeys, jsRoundR_hundred]

/-- C4 amended: on a single-element transfer list the timing, size and
distribution sub-scores are 0 (insufficient data), but the
wallet-similarity sub-score is 100. -/
theorem subscore_insufficient_data (t : TokenTransfer) :
    analyzeTimeClustering [t] = 0 ∧ analyzeTransactionSizes [t] = 0 ∧
      analyzeDistribution [t] = 0 ∧ analyzeWalletPatterns [t] = 100 := by
  refine ⟨by simp [analyzeTimeClustering], by simp [analyzeTransactionSizes], ?_,
    analyzeWalletPatterns_singleton t⟩
  simp [analyzeDistribution, buyerTotals, toKeys]

/-! ## C9: the suspicious-wallet count -/

/-- Some adjacent pair of an (already sorted) timestamp list is within
`d` ms, boundary included. -/
def adjacentWithinLe (d : ℤ) (ts : List ℤ) : Bool :=
  (ts.zip ts.tail).any (fun p => p.2 - p.1 ≤ d)

/-- Some adjacent pair of an (already sorted) timestamp list is
strictly less than `d` ms apart. -/
def adjacentWithinLt (d : ℤ) (ts : List ℤ) : Bool :=
  (ts.zip ts.tail).any (fun p => p.2 - p.1 < d)

/-- The claim's description of the suspicious-wallet count, reading
"within 300 000 ms of each other" inclusively: the number of distinct
receiving wallets with at least 2 transfers whose sorted timestamps
have some consecutive pair at most 300 000 ms apart. -/
def suspiciousWalletsSpecLe (transfers : List TokenTransfer) : ℕ :=
  ((transfers.map (·.toAddr)).dedup).countP
    (fun k =>
      let ts := ((transfers.filter (fun t => t.toAddr = k)).map (·.timestamp)).insertionSort (· ≤ ·)
      if 2 ≤ ts.length then adjacentWithinLe 300000 ts else false)

/-- As `suspiciousWalletsSpecLe` but with the strict comparison the
source actually performs (`times[i] - times[i-1] < 300000`). -/
def suspiciousWalletsSpecLt (transfers : List TokenTransfer) : ℕ :=
  ((transfers.map (·.toAddr)).dedup).countP
    (fun k =>
      let ts := ((transfers.filter (fun t => t.toAddr = k)).map (·.timestamp)).insertionSort (· ≤ ·)
      if 2 ≤ ts.length then adjacentWithinLt 300000 ts else false)

/-- The source's first-qualifying-pair loop is the adjacent-pair
existence check. -/
theorem hasRapidPair_eq_adjacentLt (ts : List ℤ) :
    hasRapidPair ts = adjacentWithinLt 300000 ts := by
  induction ts with
  | nil => rfl
  | cons a rest ih =>
    cases rest with
    | nil => rfl
    | cons b rest2 =>
      simp only [hasRapidPair, adjacentWithinLt, List.tail_cons, List.zip_cons_cons,
        List.any_cons] at ih ⊢
      by_cases h : b - a < 300000 <;> simp [h, ih]

/-- C9 counterexample: a wallet whose two transfers are exactly
300 000 ms apart is not counted by the source (strict `<`), though the
claim's inclusive reading counts it. -/
theorem countSuspiciousWallets_boundary :
    countSuspiciousWallets [mkT "s1" 0 "a" "W" 1, mkT "s2" 300000 "a" "W" 1] = 0 ∧
      suspiciousWalletsSpecLe [mkT "s1" 0 "a" "W" 1, mkT "s2" 300000 "a" "W" 1] = 1 := by
  constructor <;> decide

/-- C9 amended: for every transfer list the suspicious-wallet count
equals the number of distinct receiving wallets with at least 2
transfers whose sorted timestamps contain a consecutive pair strictly
less than 300 000 ms apart, each qualifying wallet counted once. -/
theorem countSuspiciousWallets_eq_spec (transfers : List TokenTransfer) :
    countSuspiciousWallets transfers = suspiciousWalletsSpecLt transfers := by
  unfold countSuspiciousWallets suspiciousWalletsSpecLt walletTimes toKeys
  rw [List.countP_map]
  refine List.countP_congr ?_
  intro k _
  simp only [Function.comp_apply, List.length_insertionSort, hasRapidPair_eq_adjacentLt]
  by_cases h : 1 < ((transfers.filter (fun t => t.toAddr = k)).map (·.timestamp)).length
  · rw [if_pos h, if_pos (show 2 ≤ _ from h)]
  · rw [if_neg h, if_neg (show ¬ 2 ≤ _ from h)]

/-! ## C10: sanity invariants of the details record -/

/-- C10: for every non-empty transfer list, the suspicious-wallet
count is at most the number of distinct receiving addresses, which is
at most `uniqueWallets`, which is at most twice `totalTransactions`;
and `totalTransactions` is the input length. -/
theorem details_invariants (transfers : List TokenTransfer) (_hne : transfers ≠ []) :
    (analyzeBundlingPatterns transfers).details.suspiciousWallets ≤ (toKeys transfers).length ∧
      (toKeys transfers).length ≤ (analyzeBundlingPatterns transfers).details.uniqueWallets ∧
      (analyzeBundlingPatterns transfers).details.uniqueWallets ≤
        2 * (analyzeBundlingPatterns transfers).details.totalTransactions ∧
      (analyzeBundlingPatterns transfers).details.totalTransactions = transfers.length := by
  simp only [analyzeBundlingPatterns]
  refine ⟨?_, ?_, ?_, trivial⟩
  · have h1 : countSuspiciousWallets (timingSortedView transfers) ≤
        (walletTimes (timingSortedView transfers)).length := List.countP_le_length _
    have h2 : (walletTimes (timingSortedView transfers)).length =
        (toKeys (timingSortedView transfers)).length := List.length_map _ _
    have h3 : (toKeys (timingSortedView transfers)).length = (toKeys transfers).length := by
      unfold toKeys
      exact (((timingSortedView_perm transfers).map (·.toAddr)).dedup).length_eq
    omega
  · unfold toKeys
    rw [← List.card_toFinset, ← List.card_toFinset]
    refine Finset.card_le_card ?_
    intro x hx
    simp only [List.mem_toFinset, List.mem_append] at hx ⊢
    exact Or.inr hx
  · have h := List.Sublist.length_le
      (List.dedup_sublist (transfers.map (·.fromAddr) ++ transfers.map (·.toAddr)))
    rw [List.length_append, List.length_map, List.length_map] at h
    omega

/-- Witness for C10 at a concrete one-element transfer list. -/
theorem details_invariants_witness :
    (analyzeBundlingPatterns [mkT "s" 0 "a" "b" 1]).details.suspiciousWallets ≤
      (toKeys [mkT "s" 0 "a" "b" 1]).length :=
  (details_invariants [mkT "s" 0 "a" "b" 1] (by simp)).1

/-! ## C8: the spec's worked three-transfer example -/

/-- The spec's example input: three transfers of amount 100 to three
distinct wallets at 0 ms, 1000 ms and 2000 ms. -/
def exC8 : List TokenTransfer :=
  [mkT "s1" 0 "F" "A" 100, mkT "s2" 1000 "F" "B" 100, mkT "s3" 2000 "F" "C" 100]

theorem exC8_timing : analyzeTimeClustering exC8 = 100 := by
  have hs : (exC8.insertionSort tsLe).map (·.timestamp) = [0, 1000, 2000] := by decide
  simp only [analyzeTimeClustering, hs]
  have h30 : maxClusterSize 30000 [0, 1000, 2000] = 3 := by decide
  have h60 : maxClusterSize 60000 [0, 1000, 2000] = 3 := by decide
  have h300 : maxClusterSize 300000 [0, 1000, 2000] = 3 := by decide
  norm_num [exC8, h30, h60, h300, jsRoundQ, Int.floor_eq_iff]

theorem exC8_wallet : analyzeWalletPatterns exC8 = 100 := by
  have hc : walletCounts exC8 = [1, 1, 1] := by
    simp [walletCounts, toKeys, exC8, mkT, List.count_cons]
  simp only [analyzeWalletPatterns, hc]
  norm_num [jsRoundR_hundred]

theorem exC8_size : analyzeTransactionSizes exC8 = 100 := by
  simp only [analyzeTransactionSizes]
  norm_num [exC8, mkT, jsRoundR_hundred]

theorem exC8_distribution : analyzeDistribution exC8 = 0 := by
  have hb : (buyerTotals exC8).insertionSort (· ≥ ·) = [100, 100, 100] := by
    have : buyerTotals exC8 = [100, 100, 100] := by
      simp [buyerTotals, toKeys, exC8, mkT]
    rw [this]
    decide
  simp only [analyzeDistribution, hb]
  norm_num [jsRoundQ, Int.floor_eq_iff]

/-- C8: on the spec's example (three transfers of amount 100 to three
distinct wallets at 0/1000/2000 ms) the analysis returns timing 100,
size 100, wallet 100, distribution 0, composite score 90 and risk
level "High Risk". -/
theorem example_three_identical_transfers :
    (analyzeBundlingPatterns exC8).metrics.timingCluster = 100 ∧
      (analyzeBundlingPatterns exC8).metrics.sizePatterns = 100 ∧
      (analyzeBundlingPatterns exC8).metrics.walletSimilarity = 100 ∧
      (analyzeBundlingPatterns exC8).metrics.distribution = 0 ∧
      (analyzeBundlingPatterns exC8).score = 90 ∧
      (analyzeBundlingPatterns exC8).insights.riskLevel = "High Risk" := by
  have hview : timingSortedView exC8 = exC8 := by decide
  have h90 : jsRoundQ (((100 : ℤ) : ℚ) * 0.4 + ((100 : ℤ) : ℚ) * 0.3 +
      ((100 : ℤ) : ℚ) * 0.2 + ((0 : ℤ) : ℚ) * 0.1) = 90 := by
    norm_num [jsRoundQ, Int.floor_eq_iff]
  simp only [analyzeBundlingPatterns, hview, exC8_timing, exC8_wallet, exC8_size,
    exC8_distribution, h90]
  refine ⟨trivial, trivial, trivial, trivial, trivial, ?_⟩
  norm_num [generateInsights]

/-! ## C5: the insight rule table -/

/-- The rule table's concern list for a metrics record, with the
strict thresholds the source uses (`> 70`, `> 60`, `> 60`, `> 70`),
in table order. -/
def ruleConcerns (m : Metrics) : List String :=
  (if 70 < m.timingCluster then ["High coordination in transaction timing"] else []) ++
  (if 60 < m.walletSimilarity then ["Similar wallet behavior patterns detected"] else []) ++
  (if 60 < m.sizePatterns then ["Automated transaction sizing patterns"] else []) ++
  (if 70 < m.distribution then ["High token concentration among few holders"] else [])

/-- The rule table's recommendation list, index-paired with
`ruleConcerns`. -/
def ruleRecommendations (m : Metrics) : List String :=
  (if 70 < m.timingCluster then
    ["Investigate if transactions came from known bundling services"] else []) ++
  (if 60 < m.walletSimilarity then
    ["Check if suspicious wallets share funding sources or creation dates"] else []) ++
  (if 60 < m.sizePatterns then ["Verify if similar amounts indicate bot activity"] else []) ++
  (if 70 < m.distribution then
    ["Monitor large holders for potential coordinated selling"] else [])

/-- Concerns the rule table predicts: the table rows that fire, or the
single fallback pair's concern when none does. -/
def expectedConcerns (m : Metrics) : List String :=
  if ruleConcerns m = [] then ["No major red flags detected"] else ruleConcerns m

/-- Recommendations the rule table predicts, paired with
`expectedConcerns`. -/
def expectedRecommendations (m : Metrics) : List String :=
  if ruleConcerns m = [] then ["Continue monitoring for any changes in trading patterns"]
  else ruleRecommendations m

/-- `generateInsights` produces exactly the rule table's output
(strict thresholds, fallback pair when nothing fires) with concern and
recommendation lists of equal length. -/
theorem generateInsights_spec (o t w s d : ℤ) :
    (generateInsights o t w s d).primaryConcerns = expectedConcerns ⟨t, w, s, d⟩ ∧
      (generateInsights o t w s d).recommendations = expectedRecommendations ⟨t, w, s, d⟩ ∧
      (generateInsights o t w s d).primaryConcerns.length =
        (generateInsights o t w s d).recommendations.length := by
  simp only [generateInsights, expectedConcerns, expectedRecommendations, ruleConcerns,
    ruleRecommendations, List.length_eq_zero]
  refine ⟨?_, ?_, ?_⟩ <;> split_ifs <;> simp_all

/-- C5 amended: for every non-empty transfer list the result's
concerns and recommendations are exactly the rule table applied to the
result's own metrics, with strict thresholds (timing > 70,
wallet > 60, size > 60, distribution > 70), the single fallback pair
when no row fires, and equal-length index-paired lists. -/
theorem insights_rule_table (transfers : List TokenTransfer) (_hne : transfers ≠ []) :
    (analyzeBundlingPatterns transfers).insights.primaryConcerns =
      expectedConcerns (analyzeBundlingPatterns transfers).metrics ∧
      (analyzeBundlingPatterns transfers).insights.recommendations =
        expectedRecommendations (analyzeBundlingPatterns transfers).metrics ∧
      (analyzeBundlingPatterns transfers).insights.primaryConcerns.length =
        (analyzeBundlingPatterns transfers).insights.recommendations.length := by
  simp only [analyzeBundlingPatterns]
  exact generateInsights_spec _ _ _ _ _

/-- Witness for C5 at a concrete one-element transfer list. -/
theorem insights_rule_table_witness :
    (analyzeBundlingPatterns [mkT "s" 0 "a" "b" 1]).insights.primaryConcerns =
      expectedConcerns (analyzeBundlingPatterns [mkT "s" 0 "a" "b" 1]).metrics :=
  (insights_rule_table [mkT "s" 0 "a" "b" 1] (by simp)).1

/-- Counterexample input for the claimed inclusive thresholds: ten
transfers of amount 1, nine to wallet `W1` and one to `W2`, spaced
1 000 000 ms apart.  Wallet counts are [9, 1]: mean 5, variance 16,
coefficient 4/5, so the wallet-similarity score is exactly 60. -/
def exC5 : List TokenTransfer :=
  [mkT "a1" 0 "F" "W1" 1, mkT "a2" 1000000 "F" "W1" 1, mkT "a3" 2000000 "F" "W1" 1,
   mkT "a4" 3000000 "F" "W1" 1, mkT "a5" 4000000 "F" "W1" 1, mkT "a6" 5000000 "F" "W1" 1,
   mkT "a7" 6000000 "F" "W1" 1, mkT "a8" 7000000 "F" "W1" 1, mkT "a9" 8000000 "F" "W1" 1,
   mkT "b" 9000000 "F" "W2" 1]

theorem exC5_timing : analyzeTimeClustering exC5 = 0 := by
  have hs : (exC5.insertionSort tsLe).map (·.timestamp) =
      [0, 1000000, 2000000, 3000000, 4000000, 5000000, 6000000, 7000000, 8000000,
        9000000] := by decide
  simp only [analyzeTimeClustering, hs]
  have h30 : maxClusterSize 30000 [0, 1000000, 2000000, 3000000, 4000000, 5000000,
      6000000, 7000000, 8000000, 9000000] = 0 := by decide
  have h60 : maxClusterSize 60000 [0, 1000000, 2000000, 3000000, 4000000, 5000000,
      6000000, 7000000, 8000000, 9000000] = 0 := by decide
  have h300 : maxClusterSize 300000 [0, 1000000, 2000000, 3000000, 4000000, 5000000,
      6000000, 7000000, 8000000, 9000000] = 0 := by decide
  norm_num [exC5, h30, h60, h300, jsRoundQ, Int.floor_eq_iff]

theorem exC5_wallet : analyzeWalletPatterns exC5 = 60 := by
  have hc : walletCounts exC5 = [9, 1] := by
    simp [walletCounts, toKeys, exC5, mkT, List.count_cons]
    norm_num
  simp only [analyzeWalletPatterns, hc]
  norm_num
  rw [show (16 : ℝ) = 4 ^ 2 by norm_num,
    Real.sqrt_sq (by norm_num : (0 : ℝ) ≤ 4)]
  norm_num [jsRoundR, Int.floor_eq_iff]

theorem exC5_size : analyzeTransactionSizes exC5 = 100 := by
  simp only [analyzeTransactionSizes]
  norm_num [exC5, mkT, jsRoundR_hundred]

theorem exC5_distribution : analyzeDistribution exC5 = 40 := by
  have hb : (buyerTotals exC5).insertionSort (· ≥ ·) = [9, 1] := by
    have h1 : buyerTotals exC5 = [9, 1] := by
      simp [buyerTotals, toKeys, exC5, mkT]
      norm_num
    rw [h1]
    decide
  simp only [analyzeDistribution, hb]
  norm_num [jsRoundQ, Int.floor_eq_iff]

/-- C5 counterexample: on `exC5` the wallet-similarity metric is
exactly 60, yet the wallet concern is not emitted — the source
compares `walletScore > 60` strictly, against the claim's `≥ 60`. -/
theorem wallet_threshold_is_strict :
    (analyzeBundlingPatterns exC5).metrics.walletSimilarity = 60 ∧
      "Similar wallet behavior patterns detected" ∉
        (analyzeBundlingPatterns exC5).insights.primaryConcerns := by
  have hview : timingSortedView exC5 = exC5 := by decide
  simp only [analyzeBundlingPatterns, hview, exC5_timing, exC5_wallet, exC5_size,
    exC5_distribution]
  refine ⟨trivial, ?_⟩
  simp [generateInsights]

end BundlerDetector
